import Mathlib

/-!
Shallow embedding of the exiftool-write host wrapper.

Modelled source files:
  - `src/sb.ts` — the `StringBuilder` class and its `isMultiline` test;
  - `src/index.ts` — `parseMetadata` stdout/stderr sink handlers and the
    `writeMetadata` pipeline (setup, instantiation, run, output retrieval);
  - `src/wasi/features/random.ts` — the `random_get` feature provider.

JS strings are modelled as Lean `String`, byte arrays (`Uint8Array`) as
`List Nat`, JS numbers holding exit codes as `Int`, and `undefined` as
`Option.none`. The asynchronous host environment (module instantiation,
`wasi.start`, the state of the virtual filesystem after the run and the
accumulated stderr text) is passed explicitly as a `World` value.
-/

/-- Embeds the `StringBuilder` class of `src/sb.ts`: an array of string
parts, joined on `toString`. -/
structure StringBuilder where
  parts : List String
deriving DecidableEq

/-- `StringBuilder.append`: pushes the string onto the parts array. -/
def StringBuilder.append (sb : StringBuilder) (s : String) : StringBuilder :=
  ⟨sb.parts ++ [s]⟩

/-- `StringBuilder.appendLine`: pushes the string followed by a newline
character onto the parts array. -/
def StringBuilder.appendLine (sb : StringBuilder) (s : String) : StringBuilder :=
  ⟨sb.parts ++ [s ++ "\n"]⟩

/-- `StringBuilder.toString`: joins all parts. -/
def StringBuilder.build (sb : StringBuilder) : String :=
  String.join sb.parts

/-- The loop body of `StringBuilder.isMultiline`: counts each line feed, and
each carriage return that is not immediately followed by a line feed (so that
a CRLF pair is counted once, via its line feed). -/
def lineBreakCount : List Char → Nat
  | [] => 0
  | '\n' :: rest => 1 + lineBreakCount rest
  | '\r' :: '\n' :: rest => lineBreakCount ('\n' :: rest)
  | '\r' :: rest => 1 + lineBreakCount rest
  | _ :: rest => lineBreakCount rest

/-- `StringBuilder.isMultiline`: true when the string contains at least one
line break. -/
def StringBuilder.isMultiline (s : String) : Bool :=
  lineBreakCount s.data > 0

/-- The stdout/stderr sink handler installed by `parseMetadata` and
`writeMetadata` (`src/index.ts`), applied to one already-decoded text chunk:
a multiline chunk is appended as-is, any other chunk is appended with a
terminating newline. -/
def sinkWrite (sb : StringBuilder) (s : String) : StringBuilder :=
  if StringBuilder.isMultiline s then sb.append s else sb.appendLine s

/-- Delivers a sequence of decoded text chunks to the sink handler in order,
starting from an empty builder, and reads off the accumulated text. -/
def sinkRun (chunks : List String) : String :=
  (chunks.foldl sinkWrite ⟨[]⟩).build

/-- What the sink handler contributes for one chunk: the chunk itself when it
is multiline, otherwise the chunk followed by a newline. -/
def processChunk (s : String) : String :=
  if StringBuilder.isMultiline s then s else s ++ "\n"

/-- A chunk as delivered by the WASI layer to the stdio sink: either raw
bytes (an `ArrayBuffer` view, decoded by the handler with `TextDecoder`
before the multiline test) or an already-decoded string. -/
inductive WriteChunk
  | bytes (bs : List Nat)
  | text (s : String)

/-- The decoding step at the top of the sink handler: a binary chunk is
decoded with the ambient text decoder (passed here as the function
`decode`), a string chunk is used as-is. -/
def decodeWriteChunk (decode : List Nat → String) : WriteChunk → String
  | WriteChunk.bytes bs => decode bs
  | WriteChunk.text s => s

/-- The full sink handler of `src/index.ts` on one incoming chunk: decode if
binary, then append as-is when multiline and with a terminating newline
otherwise. -/
def sinkHandle (decode : List Nat → String) (sb : StringBuilder) (c : WriteChunk) :
    StringBuilder :=
  sinkWrite sb (decodeWriteChunk decode c)

/-- The `data` field of a `Binaryfile` (or the bytes obtained from a browser
`File`): declared as `Uint8Array | Blob` in `src/index.ts`, with a runtime
guard for anything else. -/
inductive FileData
  | u8 (bytes : List Nat)
  | blob (bytes : List Nat)
  | other
deriving DecidableEq

/-- True exactly when the runtime guard
`fileData instanceof Uint8Array || fileData instanceof Blob` passes. -/
def FileData.isValid : FileData → Bool
  | FileData.u8 _ => true
  | FileData.blob _ => true
  | FileData.other => false

/-- The `data` field of `options.configFile`: declared `Uint8Array`, with a
runtime `instanceof Uint8Array` guard. -/
inductive ConfigData
  | u8 (bytes : List Nat)
  | other
deriving DecidableEq

/-- `options.configFile`, when provided. -/
structure ConfigFile where
  name : String
  data : ConfigData
deriving DecidableEq

/-- The `Binaryfile` input of `writeMetadata` (a browser `File` is first
marshalled to the same shape: a name and its bytes). -/
structure Binaryfile where
  name : String
  data : FileData
deriving DecidableEq

/-- `ExifToolWriteOptions` of `src/index.ts` (the fields `writeMetadata`
reads; the custom fetch function is part of the `World` below). -/
structure WriteOptions where
  tags : List String
  configFile : Option ConfigFile
  extraArgs : Option (List String)
deriving DecidableEq

/-- The `content` field of a file node in the `MemoryFileSystem`, as tested
by `writeMetadata` step 10: `Uint8Array`, `Blob`, or anything else. -/
inductive NodeContent
  | u8 (bytes : List Nat)
  | blob (bytes : List Nat)
  | other
deriving DecidableEq

/-- The result of `fileSystem.lookup(outputFilePath)`: absent, or a node
with a `type` tag and a content. -/
inductive LookupResult
  | absent
  | node (ty : String) (content : NodeContent)
deriving DecidableEq

/-- The outcome of `instantiateStreaming` (fetch, compile and link of the
wasm module): success, or a thrown error carrying a message. -/
inductive InstantiateOutcome
  | ok
  | throws (msg : String)
deriving DecidableEq

/-- The outcome of `await wasi.start(instance)`: it resolves with an exit
code, throws a `WASIProcExit` carrying an exit code, or throws some other
error carrying a message. -/
inductive StartOutcome
  | resolves (code : Int)
  | procExit (code : Int)
  | fails (msg : String)
deriving DecidableEq

/-- The host environment a single `writeMetadata` run interacts with: the
instantiation outcome, the guest-run outcome, the stderr text accumulated by
the stderr sink when the run has terminated, and the virtual-filesystem
lookup function at that point. -/
structure World where
  instantiate : InstantiateOutcome
  start : StartOutcome
  stderrText : String
  lookup : String → LookupResult

/-- `ExifToolWriteResult` flattened: `success`, the optional output bytes
(`data`), the `error`/`warnings` string field, and the optional reported
exit code (`Option.none` models `undefined`). -/
structure WriteResult where
  success : Bool
  data : Option (List Nat)
  message : String
  exitCode : Option Int
deriving DecidableEq

/-- One character of the sanitizing regex replace
`replace(/[^a-zA-Z0-9._-]/g, "_")`: ASCII letters, digits, dot, underscore
and hyphen are kept, everything else becomes an underscore. -/
def sanitizeChar (c : Char) : Char :=
  if c.isAlpha ∨ c.isDigit ∨ c = '.' ∨ c = '_' ∨ c = '-' then c else '_'

/-- The filename sanitizer of `writeMetadata` (steps 3 and 4), applied to
every character of the name. -/
def sanitize (s : String) : String :=
  String.mk (s.data.map sanitizeChar)

/-- What the setup phase of `writeMetadata` (steps 1-6 of `src/index.ts`)
produces when it does not return early: the virtual-FS paths, whether the
missing-config warning was logged, and the argument vector and environment
handed to the WASI host. -/
structure SetupInfo where
  inputFilePath : String
  outputFilePath : String
  configFilePath : Option String
  warned : Bool
  args : List String
  env : List (String × String)
deriving DecidableEq

/-- Steps 1-6 of `writeMetadata`: build the virtual filesystem paths, guard
the input and config data, log a warning when no config file was given,
and construct the ExifTool argument vector and the WASI environment.
`Except.error` carries the early-return failure result. Step 2 (the
`typeof exiftoolRaw === "string"` guard) cannot fail here: the bundler
imports the ExifTool script as a string constant, so at the modelled type
the guard is identically true. -/
def setupPhase (file : Binaryfile) (options : WriteOptions) :
    Except WriteResult SetupInfo :=
  let sanitizedInputFilename := sanitize file.name
  let inputFilePath := "/source_" ++ sanitizedInputFilename
  let outputFilePath := "/output_" ++ sanitizedInputFilename
  if file.data.isValid = false then
    Except.error ⟨false, none, "Input file data must be Uint8Array or Blob.", none⟩
  else
    let configCheck : Except WriteResult (Option String) :=
      match options.configFile with
      | some cfg =>
          match cfg.data with
          | ConfigData.other =>
              Except.error ⟨false, none, "Config file data must be Uint8Array.", none⟩
          | ConfigData.u8 _ => Except.ok (some ("/" ++ sanitize cfg.name))
      | none => Except.ok none
    match configCheck with
    | Except.error r => Except.error r
    | Except.ok configFilePath =>
        let exiftoolArgs :=
          ["zeroperl", "exiftool"] ++ options.extraArgs.getD [] ++ options.tags
            ++ ["-o", outputFilePath] ++ [inputFilePath]
        let wasiEnv :=
          [("LC_ALL", "C"), ("PERL_UNICODE", "SAD")]
            ++ (match configFilePath with
                | some p => [("EXIFTOOL_CONFIG", p)]
                | none => [])
        Except.ok
          ⟨inputFilePath, outputFilePath, configFilePath,
           configFilePath.isNone, exiftoolArgs, wasiEnv⟩

/-- The exit code `writeMetadata` records in step 8: the resolved value when
`wasi.start` resolves, the carried code when it throws `WASIProcExit`, and
`undefined` when it throws anything else. -/
def startExit : StartOutcome → Option Int
  | StartOutcome.resolves c => some c
  | StartOutcome.procExit c => some c
  | StartOutcome.fails _ => none

/-- Renders the recorded exit code the way the JS template literal
`ExifTool exited with code ...` does. -/
def exitCodeText : Option Int → String
  | some c => toString c
  | none => "undefined"

/-- Steps 7-11 of `writeMetadata`: instantiate the module, run the guest,
select the error message when the recorded exit code is not 0, and otherwise
retrieve the output file node from the virtual filesystem. Every branch of
the source returns a result (all exceptions around `wasi.start` and the
lookup are caught), so this is a total function into `WriteResult`. The
final `if (!modifiedFileData)` guard of the source is unreachable: after the
uncaught-free try block, `modifiedFileData` always holds a `Uint8Array`
object, which is truthy. -/
def runPhase (info : SetupInfo) (w : World) : WriteResult :=
  match w.instantiate with
  | InstantiateOutcome.throws msg =>
      ⟨false, none, "Wasm instantiation failed: " ++ msg, none⟩
  | InstantiateOutcome.ok =>
      let exitCode := startExit w.start
      let stderrOutput := w.stderrText
      if exitCode ≠ some 0 then
        let errorMsg :=
          if stderrOutput ≠ "" then stderrOutput
          else
            match w.start with
            | StartOutcome.fails m => "WASI start failed: " ++ m
            | _ => "ExifTool exited with code " ++ exitCodeText exitCode
        ⟨false, none, errorMsg, exitCode⟩
      else
        match w.lookup info.outputFilePath with
        | LookupResult.absent =>
            ⟨false, none,
             "Internal error retrieving output: Output file node not found at path: "
               ++ info.outputFilePath ++ " despite exit code 0.. Warnings: "
               ++ stderrOutput,
             some 0⟩
        | LookupResult.node ty content =>
            if ty ≠ "file" then
              ⟨false, none,
               "Internal error retrieving output: Output node at path "
                 ++ info.outputFilePath ++ " is not a file (type: " ++ ty
                 ++ "). Warnings: " ++ stderrOutput,
               some 0⟩
            else
              match content with
              | NodeContent.u8 bytes => ⟨true, some bytes, stderrOutput, some 0⟩
              | NodeContent.blob bytes => ⟨true, some bytes, stderrOutput, some 0⟩
              | NodeContent.other =>
                  ⟨false, none,
                   "Internal error retrieving output: Unexpected content type for output file node at "
                     ++ info.outputFilePath ++ ". Warnings: " ++ stderrOutput,
                   some 0⟩

/-- `writeMetadata` of `src/index.ts` as one function: run the setup phase,
propagate its early-return result, otherwise run the module against the
host environment. -/
def writeMetadata (file : Binaryfile) (options : WriteOptions) (w : World) :
    WriteResult :=
  match setupPhase file options with
  | Except.error r => r
  | Except.ok info => runPhase info w

/-- Classifies the output-node lookups that `writeMetadata` step 10 rejects:
no node, a non-file node, or a file whose content is neither a `Uint8Array`
nor a `Blob`. -/
def lookupFails : LookupResult → Bool
  | LookupResult.absent => true
  | LookupResult.node ty content =>
      if ty ≠ "file" then true
      else
        match content with
        | NodeContent.other => true
        | _ => false

/-- True exactly when the config-data guard of `writeMetadata` step 4
passes (vacuously when no config file is given). -/
def configDataOk : Option ConfigFile → Bool
  | none => true
  | some cfg =>
      match cfg.data with
      | ConfigData.u8 _ => true
      | ConfigData.other => false

/-- The WASI success errno returned by `random_get`
(`WASIAbi.WASI_ESUCCESS`). -/
def WASI_ESUCCESS : Nat := 0

/-- The memory update performed by `crypto.getRandomValues` on the view
`new Uint8Array(view.buffer, off, len)`: bytes at indices `off ≤ i < off+len`
are replaced by bytes of the host random source, all other bytes are kept. -/
def fillAt (mem : List Nat) (src : Nat → Nat) (off len : Nat) : List Nat :=
  (List.range mem.length).map
    (fun i => if off ≤ i ∧ i < off + len then src (i - off) % 256 else mem.getD i 0)

/-- The `random_get` import of `src/wasi/features/random.ts`, over a linear
memory `mem` and a host random byte source `src`. The two failure modes are
those of the underlying JS APIs: the `Uint8Array(buffer, offset, length)`
constructor throws a `RangeError` when the requested window does not fit in
the buffer, and `crypto.getRandomValues` throws a `QuotaExceededError` when
asked for more than 65536 bytes. Otherwise the window is filled from the
random source and `WASI_ESUCCESS` is returned. -/
def random_get (mem : List Nat) (src : Nat → Nat) (bufferOffset length : Nat) :
    Except String (List Nat × Nat) :=
  if bufferOffset + length ≤ mem.length then
    if length ≤ 65536 then
      Except.ok (fillAt mem src bufferOffset length, WASI_ESUCCESS)
    else Except.error "QuotaExceededError"
  else Except.error "RangeError"

/-- A concrete input file used to evaluate the embedding on closed runs. -/
def file0 : Binaryfile := ⟨"a.jpg", FileData.u8 [1, 2, 3]⟩

/-- Concrete write options: one tag assignment, no config file, no extra
arguments. -/
def options0 : WriteOptions := ⟨["-Comment=x"], none, none⟩

/-- The setup information `setupPhase` produces for `file0`/`options0`. -/
def info0 : SetupInfo :=
  ⟨"/source_a.jpg", "/output_a.jpg", none, true,
   ["zeroperl", "exiftool", "-Comment=x", "-o", "/output_a.jpg", "/source_a.jpg"],
   [("LC_ALL", "C"), ("PERL_UNICODE", "SAD")]⟩

/-- A world in which the guest exits 0 and leaves the output file in the
virtual filesystem. -/
def wOut : World :=
  ⟨InstantiateOutcome.ok, StartOutcome.resolves 0, "",
   fun p =>
     if p = "/output_a.jpg" then LookupResult.node "file" (NodeContent.u8 [9, 9])
     else LookupResult.absent⟩

/-- A world in which the guest requests a controlled exit with code 127. -/
def wProc : World :=
  ⟨InstantiateOutcome.ok, StartOutcome.procExit 127, "oops\n",
   fun _ => LookupResult.absent⟩

/-- A world in which module instantiation throws. -/
def wInst : World :=
  ⟨InstantiateOutcome.throws "network down", StartOutcome.resolves 0, "",
   fun _ => LookupResult.absent⟩

/-- A world in which `wasi.start` throws a non-`WASIProcExit` error while
some stderr text was captured. -/
def wTrap : World :=
  ⟨InstantiateOutcome.ok, StartOutcome.fails "unreachable executed", "warn\n",
   fun _ => LookupResult.absent⟩

/-- A world in which the guest exits 0 but no node exists at the output
path. -/
def wNoOut : World :=
  ⟨InstantiateOutcome.ok, StartOutcome.resolves 0, "quiet\n",
   fun _ => LookupResult.absent⟩

/-- Concrete write options carrying extra arguments, used to evaluate the
argument-vector construction on a closed input. -/
def optionsExtra : WriteOptions := ⟨["-Artist=Ann", "-Comment=x"], none, some ["-m", "-q"]⟩

/-- The setup information `setupPhase` produces for `file0`/`optionsExtra`. -/
def infoExtra : SetupInfo :=
  ⟨"/source_a.jpg", "/output_a.jpg", none, true,
   ["zeroperl", "exiftool", "-m", "-q", "-Artist=Ann", "-Comment=x", "-o",
    "/output_a.jpg", "/source_a.jpg"],
   [("LC_ALL", "C"), ("PERL_UNICODE", "SAD")]⟩

theorem sinkWrite_parts (sb : StringBuilder) (s : String) :
    (sinkWrite sb s).parts = sb.parts ++ [processChunk s] := by
  unfold sinkWrite processChunk StringBuilder.append StringBuilder.appendLine
  split <;> rfl

theorem join_append_chunks (l₁ l₂ : List String) :
    String.join (l₁ ++ l₂) = String.join l₁ ++ String.join l₂ := by
  rw [String.join_eq, String.join_eq, String.join_eq]
  show String.mk _ = String.mk _
  simp

theorem foldl_sinkWrite_parts (chunks : List String) (sb : StringBuilder) :
    (chunks.foldl sinkWrite sb).parts = sb.parts ++ chunks.map processChunk := by
  induction chunks generalizing sb with
  | nil => simp
  | cons c cs ih =>
      simp only [List.foldl_cons, List.map_cons]
      rw [ih, sinkWrite_parts, List.append_assoc]
      rfl

theorem sinkRun_eq_join_map (chunks : List String) :
    sinkRun chunks = String.join (chunks.map processChunk) := by
  unfold sinkRun StringBuilder.build
  rw [foldl_sinkWrite_parts]
  rfl

theorem join_singleton_chunk (s : String) : String.join [s] = s := by
  simp [String.join_eq]

theorem writeMetadata_of_setup_ok (file : Binaryfile) (options : WriteOptions)
    (w : World) (info : SetupInfo)
    (hsetup : setupPhase file options = Except.ok info) :
    writeMetadata file options w = runPhase info w := by
  unfold writeMetadata
  rw [hsetup]

theorem runPhase_exitCode (info : SetupInfo) (w : World)
    (hinst : w.instantiate = InstantiateOutcome.ok) (c : Int)
    (hstart : startExit w.start = some c) :
    (runPhase info w).exitCode = some c := by
  simp only [runPhase, hinst, hstart]
  by_cases hc : c = 0
  · subst hc
    rw [if_neg (by simp)]
    rcases w.lookup info.outputFilePath with _ | ⟨ty, content⟩
    · rfl
    · by_cases hty : ty = "file"
      · subst hty
        rcases content with bs | bs | _ <;> simp
      · simp [hty]
  · rw [if_pos (by simpa using hc)]

/-- C1. The spec claims that delivering any in-order partition of a text
into non-empty chunks to the stdout sink handler and concatenating the
accumulated parts reproduces the text byte-for-byte. This fails: the
partition of the text "ab" into the non-empty chunks "a" and "b"
concatenates back to "ab", yet the sink accumulates "a\n" followed by
"b\n", because the handler appends a newline to every chunk that contains
no line break. -/
theorem c1_sink_round_trip_counterexample :
    ("a" ≠ "" ∧ "b" ≠ "" ∧ String.join ["a", "b"] = "ab")
      ∧ sinkRun ["a", "b"] = "a\nb\n" ∧ sinkRun ["a", "b"] ≠ "ab" := by
  decide

/-- C1 (amended). When every delivered chunk contains at least one line
break (so `StringBuilder.isMultiline` holds of it), the stdout sink handler
appends each chunk as-is and the accumulated text reproduces the original
text byte-for-byte; a chunk with no line break instead picks up one extra
terminating newline. -/
theorem c1_multiline_chunks_reproduce_text (chunks : List String)
    (h : ∀ c ∈ chunks, StringBuilder.isMultiline c = true) :
    sinkRun chunks = String.join chunks := by
  rw [sinkRun_eq_join_map]
  congr 1
  have h2 : ∀ c ∈ chunks, processChunk c = id c := by
    intro c hc
    simp [processChunk, h c hc]
  rw [List.map_congr_left h2, List.map_id]

/-- C1 witness: a concrete chunk sequence in which every chunk contains a
line break, round-tripped through the sink. -/
theorem c1_witness :
    (∀ c ∈ ["x\n", "y\rz"], StringBuilder.isMultiline c = true)
      ∧ sinkRun ["x\n", "y\rz"] = String.join ["x\n", "y\rz"] :=
  ⟨by decide, c1_multiline_chunks_reproduce_text ["x\n", "y\rz"] (by decide)⟩

/-- C2. When `wasi.start` resolves with exit code 0 and the lookup of the
output path yields a file node whose content is a `Uint8Array`, the result
of `writeMetadata` is success with exit code 0 and its data field is exactly
that node content. -/
theorem c2_exit_zero_returns_output_file_bytes (file : Binaryfile)
    (options : WriteOptions) (w : World) (info : SetupInfo) (bytes : List Nat)
    (hsetup : setupPhase file options = Except.ok info)
    (hinst : w.instantiate = InstantiateOutcome.ok)
    (hstart : w.start = StartOutcome.resolves 0)
    (hlook : w.lookup info.outputFilePath
      = LookupResult.node "file" (NodeContent.u8 bytes)) :
    writeMetadata file options w = ⟨true, some bytes, w.stderrText, some 0⟩ := by
  rw [writeMetadata_of_setup_ok file options w info hsetup]
  simp only [runPhase, hinst, hstart, startExit, hlook]
  rw [if_neg (by simp)]
  rw [if_neg (by simp)]

/-- C2 witness: a concrete run in which the guest exits 0 and leaves the
bytes 9, 9 at the output path. -/
theorem c2_witness :
    writeMetadata file0 options0 wOut = ⟨true, some [9, 9], "", some 0⟩ :=
  c2_exit_zero_returns_output_file_bytes file0 options0 wOut info0 [9, 9]
    rfl rfl rfl rfl

/-- C3. For every resolved exit code and every `WASIProcExit` code, the
result returned by `writeMetadata` carries exactly that code; in
particular a controlled non-zero exit ends in a returned result
(`writeMetadata` is a total function into `WriteResult` here, mirroring the
catch of `WASIProcExit`), not a propagated exception. -/
theorem c3_exit_codes_reported_exactly (file : Binaryfile)
    (options : WriteOptions) (w : World) (info : SetupInfo)
    (hsetup : setupPhase file options = Except.ok info)
    (hinst : w.instantiate = InstantiateOutcome.ok) :
    (∀ c : Int, w.start = StartOutcome.resolves c →
      (writeMetadata file options w).exitCode = some c)
    ∧ (∀ c : Int, w.start = StartOutcome.procExit c →
      (writeMetadata file options w).exitCode = some c) := by
  constructor <;> intro c hc <;>
    rw [writeMetadata_of_setup_ok file options w info hsetup] <;>
    exact runPhase_exitCode info w hinst c (by rw [hc]; rfl)

/-- C3 witness: a guest that requests exit code 127 is reported as a result
with exit code 127. -/
theorem c3_witness : (writeMetadata file0 options0 wProc).exitCode = some 127 :=
  (c3_exit_codes_reported_exactly file0 options0 wProc info0 rfl rfl).2 127 rfl

/-- C4. Each chunk delivered to the stdout/stderr sink is decoded first when
it is binary; a chunk whose decoded text contains a line break is forwarded
to the accumulated output as-is, and a chunk whose decoded text contains no
line break is forwarded with exactly one terminating newline appended. -/
theorem c4_sink_chunk_forwarding (decode : List Nat → String)
    (sb : StringBuilder) (c : WriteChunk) :
    (StringBuilder.isMultiline (decodeWriteChunk decode c) = true →
      (sinkHandle decode sb c).build = sb.build ++ decodeWriteChunk decode c)
    ∧ (StringBuilder.isMultiline (decodeWriteChunk decode c) = false →
      (sinkHandle decode sb c).build
        = sb.build ++ decodeWriteChunk decode c ++ "\n") := by
  constructor <;> intro h <;>
    simp [sinkHandle, sinkWrite, h, StringBuilder.append, StringBuilder.appendLine,
      StringBuilder.build, join_append_chunks, join_singleton_chunk,
      String.append_assoc]

/-- C4 witness: the single-line chunk "ab" delivered to an empty builder
comes out as "ab" followed by one newline. -/
theorem c4_witness :
    (sinkHandle (fun _ => "") ⟨[]⟩ (WriteChunk.text "ab")).build = "ab\n" :=
  ((c4_sink_chunk_forwarding (fun _ => "") ⟨[]⟩ (WriteChunk.text "ab")).2
      (by decide)).trans (by decide)

/-- C5. When `instantiateStreaming` throws, `writeMetadata` returns a
failure result whose data and exit code are both undefined. -/
theorem c5_instantiation_failure_no_exit_code (file : Binaryfile)
    (options : WriteOptions) (w : World) (info : SetupInfo) (msg : String)
    (hsetup : setupPhase file options = Except.ok info)
    (hinst : w.instantiate = InstantiateOutcome.throws msg) :
    writeMetadata file options w
      = ⟨false, none, "Wasm instantiation failed: " ++ msg, none⟩ := by
  rw [writeMetadata_of_setup_ok file options w info hsetup]
  simp only [runPhase, hinst]

/-- C5 witness: a concrete run whose module fetch throws. -/
theorem c5_witness :
    writeMetadata file0 options0 wInst
      = ⟨false, none, "Wasm instantiation failed: network down", none⟩ :=
  c5_instantiation_failure_no_exit_code file0 options0 wInst info0
    "network down" rfl rfl

/-- C6. When `wasi.start` throws an error that is not a `WASIProcExit`, the
result is a failure with undefined exit code, and its error field is the
captured stderr text when that is non-empty, falling back to a message
derived from the thrown error otherwise. -/
theorem c6_runtime_failure_reports_stderr (file : Binaryfile)
    (options : WriteOptions) (w : World) (info : SetupInfo) (m : String)
    (hsetup : setupPhase file options = Except.ok info)
    (hinst : w.instantiate = InstantiateOutcome.ok)
    (hstart : w.start = StartOutcome.fails m) :
    writeMetadata file options w
      = ⟨false, none,
         if w.stderrText ≠ "" then w.stderrText else "WASI start failed: " ++ m,
         none⟩ := by
  rw [writeMetadata_of_setup_ok file options w info hsetup]
  simp only [runPhase, hinst, hstart, startExit]
  rw [if_pos (by simp)]

/-- C6 witness: a trapped run with captured stderr text reports that text
with no exit code. -/
theorem c6_witness :
    writeMetadata file0 options0 wTrap = ⟨false, none, "warn\n", none⟩ :=
  (c6_runtime_failure_reports_stderr file0 options0 wTrap info0
      "unreachable executed" rfl rfl rfl).trans (by decide)

/-- C7. With valid input data and a valid (or absent) config file, setup
never fails on a missing config file: it succeeds, records the warning
exactly when the config file is absent, puts `EXIFTOOL_CONFIG` in the WASI
environment exactly when a config file was provided, and `writeMetadata`
proceeds to the instantiation-and-run phase. -/
theorem c7_missing_config_only_warns (file : Binaryfile)
    (options : WriteOptions) (hdata : file.data.isValid = true)
    (hcfg : configDataOk options.configFile = true) :
    ∃ info, setupPhase file options = Except.ok info
      ∧ info.warned = options.configFile.isNone
      ∧ ((∃ v, ("EXIFTOOL_CONFIG", v) ∈ info.env) ↔ options.configFile.isSome)
      ∧ ∀ w, writeMetadata file options w = runPhase info w := by
  rcases hc : options.configFile with _ | ⟨cname, cdata⟩
  · have hs : setupPhase file options = Except.ok
        ⟨"/source_" ++ sanitize file.name, "/output_" ++ sanitize file.name,
         none, true,
         ["zeroperl", "exiftool"] ++ options.extraArgs.getD [] ++ options.tags
           ++ ["-o", "/output_" ++ sanitize file.name]
           ++ ["/source_" ++ sanitize file.name],
         [("LC_ALL", "C"), ("PERL_UNICODE", "SAD")]⟩ := by
      simp [setupPhase, hdata, hc]
    refine ⟨_, hs, rfl, ?_, fun w => writeMetadata_of_setup_ok file options w _ hs⟩
    simp
  · rcases cdata with bs | _
    · have hs : setupPhase file options = Except.ok
          ⟨"/source_" ++ sanitize file.name, "/output_" ++ sanitize file.name,
           some ("/" ++ sanitize cname), false,
           ["zeroperl", "exiftool"] ++ options.extraArgs.getD [] ++ options.tags
             ++ ["-o", "/output_" ++ sanitize file.name]
             ++ ["/source_" ++ sanitize file.name],
           [("LC_ALL", "C"), ("PERL_UNICODE", "SAD"),
            ("EXIFTOOL_CONFIG", "/" ++ sanitize cname)]⟩ := by
        simp [setupPhase, hdata, hc]
      refine ⟨_, hs, rfl, ?_, fun w => writeMetadata_of_setup_ok file options w _ hs⟩
      simp
    · rw [hc] at hcfg
      simp [configDataOk] at hcfg

/-- C7 witness: the concrete options without a config file set up
successfully with the warning recorded and no `EXIFTOOL_CONFIG` variable. -/
theorem c7_witness :
    ∃ info, setupPhase file0 options0 = Except.ok info
      ∧ info.warned = (options0.configFile).isNone
      ∧ ((∃ v, ("EXIFTOOL_CONFIG", v) ∈ info.env) ↔ (options0.configFile).isSome)
      ∧ ∀ w, writeMetadata file0 options0 w = runPhase info w :=
  c7_missing_config_only_warns file0 options0 (by decide) (by decide)

/-- C8. The spec claims `random_get` fills the requested window and returns
the WASI success code for every buffer offset and length. This fails when
the window does not fit in the linear memory: on a 2-byte memory, offset 1
with length 4 makes the typed-array constructor throw a `RangeError`, so no
success code is returned. -/
theorem c8_random_get_counterexample :
    random_get [0, 0] (fun _ => 0) 1 4 = Except.error "RangeError"
      ∧ random_get [0, 0] (fun _ => 0) 1 4
        ≠ Except.ok (fillAt [0, 0] (fun _ => 0) 1 4, WASI_ESUCCESS) := by
  constructor
  · rfl
  · intro h
    exact Except.noConfusion h

/-- C8 (amended). For every buffer offset and length whose window fits in
the linear memory (and within the 65536-byte quota of the host random
source), `random_get` returns the WASI success code and fills exactly
`length` bytes starting at `bufferOffset` with bytes of the host random
source, leaving every other byte of memory unchanged. -/
theorem c8_random_get_fills_in_bounds (mem : List Nat) (src : Nat → Nat)
    (off len : Nat) (hb : off + len ≤ mem.length) (hq : len ≤ 65536) :
    ∃ mem₂, random_get mem src off len = Except.ok (mem₂, WASI_ESUCCESS)
      ∧ mem₂.length = mem.length
      ∧ (∀ i, i < mem.length → i < off ∨ off + len ≤ i →
          mem₂.getD i 0 = mem.getD i 0)
      ∧ ∀ j, j < len → mem₂.getD (off + j) 0 = src j % 256 := by
  refine ⟨fillAt mem src off len, ?_, ?_, ?_, ?_⟩
  · unfold random_get
    rw [if_pos hb, if_pos hq]
  · simp [fillAt]
  · intro i hi hout
    rw [List.getD_eq_getElem?_getD]
    unfold fillAt
    rw [List.getElem?_map, List.getElem?_range hi]
    have : ¬(off ≤ i ∧ i < off + len) := by omega
    simp [this]
  · intro j hj
    have hin : off + j < mem.length := by omega
    rw [List.getD_eq_getElem?_getD]
    unfold fillAt
    rw [List.getElem?_map, List.getElem?_range hin]
    have : off ≤ off + j ∧ off + j < off + len := by omega
    simp [this]

/-- C8 witness: filling two bytes at offset 1 of a three-byte memory from
the source j + 300 yields bytes 44 and 45 there and returns success. -/
theorem c8_witness :
    ∃ mem₂, random_get [5, 6, 7] (fun j => j + 300) 1 2
        = Except.ok (mem₂, WASI_ESUCCESS)
      ∧ mem₂.length = ([5, 6, 7] : List Nat).length
      ∧ (∀ i, i < ([5, 6, 7] : List Nat).length → i < 1 ∨ 1 + 2 ≤ i →
          mem₂.getD i 0 = ([5, 6, 7] : List Nat).getD i 0)
      ∧ ∀ j, j < 2 → mem₂.getD (1 + j) 0 = (fun j => j + 300) j % 256 :=
  c8_random_get_fills_in_bounds [5, 6, 7] (fun j => j + 300) 1 2
    (by decide) (by decide)

/-- C9. When the recorded exit code is 0 but the output-path lookup yields
no node, a non-file node, or a file whose content is neither a `Uint8Array`
nor a `Blob`, `writeMetadata` returns a failure result with no data and
exit code 0 — so exit code 0 alone does not imply success. -/
theorem c9_exit_zero_lookup_failure_not_success (file : Binaryfile)
    (options : WriteOptions) (w : World) (info : SetupInfo)
    (hsetup : setupPhase file options = Except.ok info)
    (hinst : w.instantiate = InstantiateOutcome.ok)
    (hstart : startExit w.start = some 0)
    (hfail : lookupFails (w.lookup info.outputFilePath) = true) :
    (writeMetadata file options w).success = false
      ∧ (writeMetadata file options w).data = none
      ∧ (writeMetadata file options w).exitCode = some 0 := by
  rw [writeMetadata_of_setup_ok file options w info hsetup]
  simp only [runPhase, hinst, hstart]
  rw [if_neg (by simp)]
  rcases hl : w.lookup info.outputFilePath with _ | ⟨ty, content⟩
  · simp
  · rw [hl] at hfail
    by_cases hty : ty = "file"
    · subst hty
      rcases content with bs | bs | _
      · simp [lookupFails] at hfail
      · simp [lookupFails] at hfail
      · simp
    · simp [hty]

/-- C9 witness: a run with exit code 0 and no node at the output path is
reported as a failure carrying exit code 0. -/
theorem c9_witness :
    (writeMetadata file0 options0 wNoOut).success = false
      ∧ (writeMetadata file0 options0 wNoOut).data = none
      ∧ (writeMetadata file0 options0 wNoOut).exitCode = some 0 :=
  c9_exit_zero_lookup_failure_not_success file0 options0 wNoOut info0
    rfl rfl rfl rfl

/-- C10. Whenever setup succeeds, the argument vector handed to the WASI
host is exactly "zeroperl", "exiftool", the extra arguments in order (empty
when absent), the tag assignments in order, then "-o" with the output path,
and finally the input path. -/
theorem c10_argument_vector_exact (file : Binaryfile) (options : WriteOptions)
    (info : SetupInfo) (hsetup : setupPhase file options = Except.ok info) :
    info.args = ["zeroperl", "exiftool"] ++ options.extraArgs.getD []
      ++ options.tags ++ ["-o", "/output_" ++ sanitize file.name]
      ++ ["/source_" ++ sanitize file.name] := by
  simp only [setupPhase] at hsetup
  split at hsetup
  · exact Except.noConfusion hsetup
  · split at hsetup
    · exact Except.noConfusion hsetup
    · injection hsetup with h
      subst h
      rfl

/-- C10 witness: concrete options with extra arguments and two tags yield
the fully ordered argument vector. -/
theorem c10_witness :
    infoExtra.args = ["zeroperl", "exiftool", "-m", "-q", "-Artist=Ann",
      "-Comment=x", "-o", "/output_a.jpg", "/source_a.jpg"] :=
  (c10_argument_vector_exact file0 optionsExtra infoExtra rfl).trans (by decide)
